import Mathlib

/-!
Shallow embedding of the crop-planting optimization engine
(`src/optimization.py`, `src/utils.py`).

Modelling conventions:
- Python floats are modelled by `ℚ` (all arithmetic in the engine is
  exact on the values the claims mention).
- Python dicts are modelled by association lists; lookups take the first
  matching key (real data has unique keys, so this coincides with dicts).
- A Plan (`solution` in the source) maps each plot to a list of per-year
  season assignments; year keys in the source are always the contiguous
  range `0..years-1`, so a `List` indexed by position is the year dict,
  and the source's `if year in solution[land]` guard is always true.
- Code that can raise (KeyError / IndexError / ValueError) is modelled
  with `Option`: `none` is an uncaught exception.
- The shared pseudo-random source is modelled by an explicit stream of
  natural numbers (`RandStream`); `random.choice(l)` consumes one draw
  `n` and picks index `n % len(l)`, `random.random() < 0.5` consumes one
  draw and tests parity, `random.randint(0, k)` consumes one draw `n`
  and yields `n % (k+1)`.
-/

/-- Land types: the six values of the `地块类型` column used in
`optimization.py` (平旱地, 梯田, 山坡地, 水浇地, 普通大棚, 智慧大棚). -/
inductive LandType where
  | flatDry
  | terrace
  | hillside
  | irrigated
  | normalGreenhouse
  | smartGreenhouse
deriving DecidableEq, Repr

/-- Season labels: 单季, 第一季, 第二季. -/
inductive Season where
  | single
  | first
  | second
deriving DecidableEq, Repr

/-- The fixed iteration order of seasons used throughout the source:
`['单季', '第一季', '第二季']`. -/
def seasonList : List Season := [Season.single, Season.first, Season.second]

/-- One cell of a plan: `{'crop_id': ..., 'area': ...}`.  The source also
stores `crop_name`, which is never read by fitness, penalty or the
validators, so it is omitted. -/
structure Cell where
  cropId : Nat
  area : ℚ
deriving DecidableEq, Repr

/-- The season dict `solution[land][year]`: at most one cell per season
label. -/
structure YearPlan where
  sSingle : Option Cell
  sFirst : Option Cell
  sSecond : Option Cell
deriving DecidableEq, Repr

def emptyYP : YearPlan := { sSingle := none, sFirst := none, sSecond := none }

def YearPlan.get (yp : YearPlan) : Season → Option Cell
  | Season.single => yp.sSingle
  | Season.first => yp.sFirst
  | Season.second => yp.sSecond

/-- A Plan (`solution`): plot id ↦ list of per-year season assignments. -/
abbrev Plan := List (Nat × List YearPlan)

/-- `land_info[land]`: `{'type': ..., 'area': ...}`. -/
structure LandInfo where
  ltype : LandType
  area : ℚ
deriving DecidableEq, Repr

/-- `crop_info[crop_id]`: only the `type` (category tag) field is read by
the optimizer and the validators (`name` / `suitable_land` are not). -/
structure CropRec where
  ctype : String
deriving DecidableEq, Repr

/-- `stats_info[(crop_id, land_type, season)]`. -/
structure StatsEntry where
  yieldPerMu : ℚ
  costPerMu : ℚ
  minPrice : ℚ
  maxPrice : ℚ
deriving DecidableEq, Repr

/-- The preprocessed dataset held by `CropOptimizer`. -/
structure Dataset where
  lands : List (Nat × LandInfo)
  crops : List (Nat × CropRec)
  stats : List ((Nat × LandType × Season) × StatsEntry)
  expectedSales : List (Nat × ℚ)

/-- Association-list lookup, modelling Python dict indexing. -/
def alookup {κ α : Type} [DecidableEq κ] : List (κ × α) → κ → Option α
  | [], _ => none
  | p :: rest, k => if p.1 = k then some p.2 else alookup rest k

/-- Category-tag marker strings from the source. -/
def beanMarker : String := "豆类"

def grainMarker : String := "粮食"

def vegType : String := "蔬菜"

def typeGrainBean : String := "粮食（豆类）"

def typeVegBean : String := "蔬菜（豆类）"

/-- Substring test on char lists (Python's `in` on strings). -/
def listContainsSub (needle : List Char) : List Char → Bool
  | [] => needle.isEmpty
  | c :: rest => needle.isPrefixOf (c :: rest) || listContainsSub needle rest

/-- `needle in hay` for Python strings. -/
def strContains (hay needle : String) : Bool :=
  listContainsSub needle.toList hay.toList

/-- `crop_id in self.bean_crops`: the crop exists and its category tag
contains the legume marker `豆类` (`optimization.py` lines 16-17). -/
def isBean (ds : Dataset) (cid : Nat) : Bool :=
  match alookup ds.crops cid with
  | some cr => strContains cr.ctype beanMarker
  | none => false

/-- The present cells of a year dict paired with their season labels, in
the fixed season order (dict iteration order; the generator inserts in
this order as well). -/
def yearCells (yp : YearPlan) : List (Season × Cell) :=
  seasonList.filterMap fun s => (yp.get s).map fun c => (s, c)

/-- Mean price `(min_price + max_price) / 2`. -/
def meanPrice (st : StatsEntry) : ℚ := (st.minPrice + st.maxPrice) / 2

/-- Revenue rule (`optimization.py` lines 190-198).  `sc = 1` is the
shortage scenario (滞销), anything else takes the markdown (降价50%)
branch, exactly as the source's `if scenario == 1 ... else`. -/
def cellRevenue (ds : Dataset) (sc : Nat) (cid : Nat) (totalYield price : ℚ) : ℚ :=
  match alookup ds.expectedSales cid with
  | some expected =>
      if sc = 1 then min totalYield expected * price
      else min totalYield expected * price + max 0 (totalYield - expected) * price * (1 / 2)
  | none => totalYield * price

/-- Per-cell profit contribution (`optimization.py` lines 177-201):
missing stats entry contributes zero. -/
def cellProfit (ds : Dataset) (sc : Nat) (lt : LandType) (s : Season) (c : Cell) : ℚ :=
  match alookup ds.stats (c.cropId, lt, s) with
  | none => 0
  | some st =>
      cellRevenue ds sc c.cropId (st.yieldPerMu * c.area) (meanPrice st) - st.costPerMu * c.area

/-- Profit of one plot-year (sum over the present seasons). -/
def yearProfit (ds : Dataset) (sc : Nat) (lt : LandType) (yp : YearPlan) : ℚ :=
  ((yearCells yp).map fun p => cellProfit ds sc lt p.1 p.2).sum

/-- Total profit (`optimization.py` lines 170-201).  `self.land_info[land]`
raises KeyError when a plot is not in the dataset: `none`. -/
def totalProfit? (ds : Dataset) (sc : Nat) : Plan → Option ℚ
  | [] => some 0
  | p :: rest =>
      match alookup ds.lands p.1, totalProfit? ds sc rest with
      | some li, some acc => some ((p.2.map (yearProfit ds sc li.ltype)).sum + acc)
      | _, _ => none

/-- Rule 1 scan: does the plot plant a bean crop in any year/season
(`optimization.py` lines 213-223; the year loop is `range(len(...))`
with an always-true membership guard, i.e. every list element). -/
def plotHasBean (ds : Dataset) (yl : List YearPlan) : Bool :=
  yl.any fun yp => (yearCells yp).any fun pr => isBean ds pr.2.cropId

/-- Rule 1: legume-rotation penalty, 100000 per plot with no bean cell
(`optimization.py` lines 212-225). -/
def rotationPenalty (ds : Dataset) (plan : Plan) : ℚ :=
  (plan.map fun p => if plotHasBean ds p.2 then 0 else (100000 : ℚ)).sum

/-- The chronological crop sequence of a plot: years in order, seasons in
the fixed order, present cells only (`optimization.py` lines 228-236;
`prev_crop` persists across years). -/
def plotCropSeq (yl : List YearPlan) : List Nat :=
  yl.flatMap fun yp => (yearCells yp).map fun pr => pr.2.cropId

/-- Number of immediate-replant occurrences in a crop sequence. -/
def replantCount : List Nat → Nat
  | [] => 0
  | [_] => 0
  | a :: b :: rest => (if a = b then 1 else 0) + replantCount (b :: rest)

/-- Rule 2: immediate-replant penalty, 50000 per occurrence. -/
def replantPenalty (plan : Plan) : ℚ :=
  (plan.map fun p => 50000 * (replantCount (plotCropSeq p.2) : ℚ)).sum

/-- The (crop, plot) occurrences of one (year, season) stratum
(`optimization.py` lines 241-247). -/
def stratumLands (plan : Plan) (y : Nat) (s : Season) : List (Nat × Nat) :=
  plan.filterMap fun p => (p.2.get? y).bind fun yp => (yp.get s).map fun c => (c.cropId, p.1)

/-- Distinct plots growing `cid` in the stratum (the `set` of lands). -/
def stratumCropPlotCount (plan : Plan) (y : Nat) (s : Season) (cid : Nat) : Nat :=
  (((stratumLands plan y s).filter fun pr => pr.1 = cid).map Prod.snd).toFinset.card

/-- Per-crop concentration penalty as a function of its distinct-plot
count (`optimization.py` lines 249-254). -/
def cropStratumPenalty (n : Nat) : ℚ :=
  if n < 2 then 50000 * ((2 : ℚ) - n)
  else if 8 < n then 30000 * ((n : ℚ) - 8)
  else 0

/-- Concentration penalty of one stratum: sum over the distinct crops
planted in it. -/
def stratumPenalty (plan : Plan) (y : Nat) (s : Season) : ℚ :=
  (((stratumLands plan y s).map Prod.fst).dedup.map fun cid =>
    cropStratumPenalty (stratumCropPlotCount plan y s cid)).sum

/-- Rule 3: concentration penalty (`optimization.py` lines 238-254).
The year range is `range(len(solution[list(solution.keys())[0]]))`: the
first plot's year count; on an empty plan the `[0]` raises IndexError. -/
def concentrationPenalty? : Plan → Option ℚ
  | [] => none
  | p0 :: rest =>
      some (((List.range p0.2.length).map fun y =>
        ((seasonList.map fun s => stratumPenalty (p0 :: rest) y s).sum)).sum)

/-- Rule 4: minimum-area penalty, `20000 * (0.5 - area)` for cells with
area below 0.5 (`optimization.py` lines 256-262). -/
def minAreaPenalty (plan : Plan) : ℚ :=
  (plan.map fun p =>
    (p.2.map fun yp =>
      ((yearCells yp).map fun pr =>
        if pr.2.area < (1 / 2 : ℚ) then 20000 * ((1 / 2 : ℚ) - pr.2.area) else 0).sum).sum).sum

/-- `_calculate_constraint_penalty` (`optimization.py` lines 208-264):
the sum of the four rules; `none` is the IndexError of rule 3 on an
empty plan. -/
def constraintPenalty? (ds : Dataset) (plan : Plan) : Option ℚ :=
  (concentrationPenalty? plan).map fun cp =>
    rotationPenalty ds plan + replantPenalty plan + cp + minAreaPenalty plan

/-- `_calculate_fitness` (`optimization.py` lines 168-206): total profit
minus total penalty; `none` is an uncaught KeyError/IndexError. -/
def calculateFitness? (ds : Dataset) (sc : Nat) (plan : Plan) : Option ℚ :=
  match totalProfit? ds sc plan, constraintPenalty? ds plan with
  | some pr, some pen => some (pr - pen)
  | _, _ => none

/-- `SolutionValidator.validate_rotation` per-plot cell scan: looks each
crop up in `crop_info` (KeyError ⇒ `none`) and stops at the first crop
whose category tag is exactly `粮食（豆类）` or `蔬菜（豆类）`
(`utils.py` lines 130-145). -/
def validateCells (ds : Dataset) : List Cell → Option Bool
  | [] => some false
  | c :: rest =>
      match alookup ds.crops c.cropId with
      | none => none
      | some cr =>
          if cr.ctype = typeGrainBean ∨ cr.ctype = typeVegBean then some true
          else validateCells ds rest

/-- The cells of a plot scanned by the validator: years `0..years-1`
(the `years` parameter, not the plot's own length), fixed season order. -/
def plotCellsUpTo (years : Nat) (yl : List YearPlan) : List Cell :=
  (List.range years).flatMap fun y =>
    match yl.get? y with
    | some yp => (yearCells yp).map Prod.snd
    | none => []

/-- `SolutionValidator.validate_rotation` (`utils.py` lines 129-145):
returns `false` at the first plot with no exact-tag bean cell. -/
def validateRotation? (ds : Dataset) : Plan → Nat → Option Bool
  | [], _ => some true
  | p :: rest, years =>
      match validateCells ds (plotCellsUpTo years p.2) with
      | none => none
      | some true => validateRotation? ds rest years
      | some false => some false

/-- All (crop, plot) occurrences across the whole plan, every year of
every plot (`utils.py` lines 163-172: `range(len(crops))` per plot). -/
def globalPairs (plan : Plan) : List (Nat × Nat) :=
  plan.flatMap fun p =>
    (List.range p.2.length).flatMap fun y =>
      seasonList.filterMap fun s =>
        (p.2.get? y).bind fun yp => (yp.get s).map fun c => (c.cropId, p.1)

/-- Distinct plots growing `cid` anywhere in the plan. -/
def globalCropPlotCount (plan : Plan) (cid : Nat) : Nat :=
  (((globalPairs plan).filter fun pr => pr.1 = cid).map Prod.snd).toFinset.card

/-- `SolutionValidator.validate_concentration` (`utils.py` lines
161-177): every crop planted anywhere must appear on at least
`min_plots` distinct plots, aggregated over all years and seasons; there
is no maximum check. -/
def validateConcentration (plan : Plan) (minPlots : Nat) : Bool :=
  ((globalPairs plan).map Prod.fst).dedup.all fun cid =>
    decide (minPlots ≤ globalCropPlotCount plan cid)

/-- Random draws: the shared `random` source as an explicit stream. -/
abbrev RandStream := List Nat

def draw (rs : RandStream) : Nat × RandStream := (rs.headD 0, rs.tail)

/-- `random.choice(l)` with draw `n` (only used on nonempty `l`). -/
def pickFrom (l : List Nat) (n : Nat) : Nat := l.getD (n % l.length) 0

/-- `[c for c in self.crop_info if '粮食' in self.crop_info[c]['type']]`. -/
def grainCrops (ds : Dataset) : List Nat :=
  (ds.crops.filter fun p => strContains p.2.ctype grainMarker).map Prod.fst

/-- The excluded root/leaf vegetable ids `[37, 38, 39]`. -/
def rootVegIds : List Nat := [37, 38, 39]

/-- `[c for c in self.crop_info if type == '蔬菜' and c not in [37,38,39]]`. -/
def vegCrops (ds : Dataset) : List Nat :=
  (ds.crops.filter fun p => p.2.ctype = vegType ∧ ¬ p.1 ∈ rootVegIds).map Prod.fst

/-- `[c for c in [37, 38, 39] if c in self.crop_info]`. -/
def secondVegCrops (ds : Dataset) : List Nat :=
  rootVegIds.filter fun c => (alookup ds.crops c).isSome

/-- `range(40, 44)`. -/
def mushroomIds : List Nat := [40, 41, 42, 43]

/-- `[c for c in range(40, 44) if c in self.crop_info]`. -/
def mushroomCrops (ds : Dataset) : List Nat :=
  mushroomIds.filter fun c => (alookup ds.crops c).isSome

/-- Regenerate one plot-year by land type.  This is the body shared
verbatim between `_generate_initial_solution` (`optimization.py` lines
92-164) and the local search's cell regeneration (lines 294-358): the
two code blocks are identical.  The irrigated coin is the source's
`random.random() < 0.5` (even draw = the paddy-rice branch, which
hardcodes `crop_id = 18` with no existence check). -/
def regenYearPlan (ds : Dataset) (lt : LandType) (area : ℚ) (rs : RandStream) :
    YearPlan × RandStream :=
  match lt with
  | LandType.flatDry | LandType.terrace | LandType.hillside =>
      let g := grainCrops ds
      if g.isEmpty then (emptyYP, rs)
      else
        let (n, rs1) := draw rs
        ({ emptyYP with sSingle := some ⟨pickFrom g n, area⟩ }, rs1)
  | LandType.irrigated =>
      let (coin, rs1) := draw rs
      if coin % 2 = 0 then
        ({ emptyYP with sSingle := some ⟨18, area⟩ }, rs1)
      else
        let v := vegCrops ds
        let fstRes :=
          if v.isEmpty then (emptyYP, rs1)
          else
            let (n, rs2) := draw rs1
            ({ emptyYP with sFirst := some ⟨pickFrom v n, area⟩ }, rs2)
        let sc := secondVegCrops ds
        if sc.isEmpty then fstRes
        else
          let (m, rs3) := draw fstRes.2
          ({ fstRes.1 with sSecond := some ⟨pickFrom sc m, area⟩ }, rs3)
  | LandType.normalGreenhouse =>
      let v := vegCrops ds
      let fstRes :=
        if v.isEmpty then (emptyYP, rs)
        else
          let (n, rs1) := draw rs
          ({ emptyYP with sFirst := some ⟨pickFrom v n, area⟩ }, rs1)
      let m := mushroomCrops ds
      if m.isEmpty then fstRes
      else
        let (k, rs2) := draw fstRes.2
        ({ fstRes.1 with sSecond := some ⟨pickFrom m k, area⟩ }, rs2)
  | LandType.smartGreenhouse =>
      let v := vegCrops ds
      let fstRes :=
        if v.isEmpty then (emptyYP, rs)
        else
          let (n, rs1) := draw rs
          ({ emptyYP with sFirst := some ⟨pickFrom v n, area⟩ }, rs1)
      if v.isEmpty then fstRes
      else
        let (m, rs2) := draw fstRes.2
        ({ fstRes.1 with sSecond := some ⟨pickFrom v m, area⟩ }, rs2)

/-- Years `0..years-1` of one plot, in order, threading the stream. -/
def genYears (ds : Dataset) (lt : LandType) (area : ℚ) :
    Nat → RandStream → List YearPlan × RandStream
  | 0, rs => ([], rs)
  | Nat.succ n, rs =>
      let (yp, rs1) := regenYearPlan ds lt area rs
      let (rest, rs2) := genYears ds lt area n rs1
      (yp :: rest, rs2)

/-- Iterate `for land in self.land_info` in order. -/
def generateAux (ds : Dataset) (years : Nat) :
    List (Nat × LandInfo) → RandStream → Plan × RandStream
  | [], rs => ([], rs)
  | l :: rest, rs =>
      let (yl, rs1) := genYears ds l.2.ltype l.2.area years rs
      let (restPlan, rs2) := generateAux ds years rest rs1
      ((l.1, yl) :: restPlan, rs2)

/-- `_generate_initial_solution` (`optimization.py` lines 80-166). -/
def generateInitialSolution (ds : Dataset) (years : Nat) (rs : RandStream) :
    Plan × RandStream :=
  generateAux ds years ds.lands rs

/-- One sampled plot of a local-search pass: the plot chosen by
`random.sample`, the draw behind `random.randint(0, len - 1)`, and the
stream feeding the cell regeneration. -/
structure TrialChoice where
  land : Nat
  yearDraw : Nat
  regen : RandStream

/-- Replace `solution[land][year]` (the `test_solution[land][year] = {}`
clear followed by regeneration). -/
def planSetYear (plan : Plan) (land : Nat) (year : Nat) (yp : YearPlan) : Plan :=
  plan.map fun p => if p.1 = land then (p.1, p.2.set year yp) else p

/-- One trial of `_simple_local_search` (`optimization.py` lines
282-367).  `test_solution = best_solution.copy()` is a SHALLOW dict
copy: the per-plot year dicts are shared, so `test_solution[land][year]
= {}` and the regeneration write through to `best_solution`.  The
returned plan is therefore the mutated plan whether or not the candidate
is accepted; acceptance only updates `best_fitness` and the `improved`
flag.  `none` models KeyError (plot or land info missing) or the
ValueError of `randint(0, -1)` on a plot with no years. -/
def localSearchTrial? (ds : Dataset) (sc : Nat) (plan : Plan) (bestFit : ℚ)
    (tc : TrialChoice) : Option (Plan × ℚ × Bool) :=
  match alookup plan tc.land with
  | none => none
  | some yl =>
      match alookup ds.lands tc.land with
      | none => none
      | some li =>
          if yl.isEmpty then none
          else
            let year := tc.yearDraw % yl.length
            let yp := (regenYearPlan ds li.ltype li.area tc.regen).1
            let plan2 := planSetYear plan tc.land year yp
            match calculateFitness? ds sc plan2 with
            | none => none
            | some nf =>
                if bestFit < nf then some (plan2, nf, true)
                else some (plan2, bestFit, false)

/-- One pass over the sampled plots (`for land in lands_to_modify`):
first improvement breaks out of the pass; a rejected trial keeps the
(already mutated) plan and the old best fitness. -/
def localSearchPass? (ds : Dataset) (sc : Nat) :
    Plan → ℚ → List TrialChoice → Option (Plan × ℚ × Bool)
  | plan, fit, [] => some (plan, fit, false)
  | plan, fit, tc :: rest =>
      match localSearchTrial? ds sc plan fit tc with
      | none => none
      | some (p2, f2, true) => some (p2, f2, true)
      | some (p2, _, false) => localSearchPass? ds sc p2 fit rest

/-- The `while improved and iterations < max_iterations` loop with
`max_iterations = 100` as fuel; each iteration consumes one sampled-plot
list from the oracle. -/
def lsLoop? (ds : Dataset) (sc : Nat) :
    Nat → List (List TrialChoice) → Plan → ℚ → Option (Plan × ℚ)
  | 0, _, plan, fit => some (plan, fit)
  | Nat.succ fuel, passes, plan, fit =>
      match localSearchPass? ds sc plan fit (passes.headD []) with
      | none => none
      | some (p2, f2, improved) =>
          if improved then lsLoop? ds sc fuel passes.tail p2 f2
          else some (p2, f2)

/-- `_simple_local_search` (`optimization.py` lines 266-370), with the
random sampling supplied by `passes`. -/
def simpleLocalSearch? (ds : Dataset) (sc : Nat) (plan : Plan)
    (passes : List (List TrialChoice)) : Option (Plan × ℚ) :=
  (calculateFitness? ds sc plan).bind fun fit0 => lsLoop? ds sc 100 passes plan fit0

/-!
Concrete dataset of the spec's end-to-end scenario (claim C4): one
irrigated plot of area 10, one grain-legume crop (id 5) with yield 500,
cost 200, price band [2, 3], expected sales 6000, horizon 1 year.
-/

def exDs4 : Dataset :=
  { lands := [(1, { ltype := LandType.irrigated, area := 10 })]
    crops := [(5, { ctype := typeGrainBean })]
    stats := [((5, LandType.irrigated, Season.single),
      { yieldPerMu := 500, costPerMu := 200, minPrice := 2, maxPrice := 3 })]
    expectedSales := [(5, 6000)] }

/-- The single-season cell planting crop 5 on the full plot. -/
def yp4 : YearPlan := ⟨some ⟨5, 10⟩, none, none⟩

def exPlan4 : Plan := [(1, [yp4])]

theorem exPlan4_profit1 : totalProfit? exDs4 1 exPlan4 = some 10500 := by
  have hland : alookup exDs4.lands 1 = some ⟨LandType.irrigated, 10⟩ := by decide
  have hyear : yearProfit exDs4 1 LandType.irrigated yp4 = 10500 := by
    norm_num [yearProfit, yearCells, yp4, cellProfit, cellRevenue, meanPrice, seasonList,
      YearPlan.get, List.filterMap_cons, List.filterMap_nil, alookup, exDs4, min_def, max_def]
  simp [totalProfit?, exPlan4, hland, hyear]

theorem exPlan4_profit2 : totalProfit? exDs4 2 exPlan4 = some 10500 := by
  have hland : alookup exDs4.lands 1 = some ⟨LandType.irrigated, 10⟩ := by decide
  have hyear : yearProfit exDs4 2 LandType.irrigated yp4 = 10500 := by
    norm_num [yearProfit, yearCells, yp4, cellProfit, cellRevenue, meanPrice, seasonList,
      YearPlan.get, List.filterMap_cons, List.filterMap_nil, alookup, exDs4, min_def, max_def]
  simp [totalProfit?, exPlan4, hland, hyear]

theorem exPlan4_penalty : constraintPenalty? exDs4 exPlan4 = some 50000 := by
  have h1 : ((stratumLands [(1, [yp4])] 0 Season.single).map Prod.fst).dedup = [5] := by decide
  have h2 : ((stratumLands [(1, [yp4])] 0 Season.first).map Prod.fst).dedup = [] := by decide
  have h3 : ((stratumLands [(1, [yp4])] 0 Season.second).map Prod.fst).dedup = [] := by decide
  have h4 : stratumCropPlotCount [(1, [yp4])] 0 Season.single 5 = 1 := by decide
  have h5 : plotHasBean exDs4 [yp4] = true := by decide
  have hconc : concentrationPenalty? [(1, [yp4])] = some 50000 := by
    norm_num [concentrationPenalty?, stratumPenalty, h1, h2, h3, h4, cropStratumPenalty,
      List.range_succ, seasonList]
  have hrot : rotationPenalty exDs4 [(1, [yp4])] = 0 := by
    simp [rotationPenalty, h5]
  have hrep : replantPenalty [(1, [yp4])] = 0 := by
    have h6 : plotCropSeq [yp4] = [5] := by decide
    simp [replantPenalty, h6, replantCount]
  have hmin : minAreaPenalty [(1, [yp4])] = 0 := by
    have h7 : yearCells yp4 = [(Season.single, ⟨5, 10⟩)] := by decide
    norm_num [minAreaPenalty, h7]
  norm_num [constraintPenalty?, exPlan4, hconc, hrot, hrep, hmin]

theorem exPlan4_fitness1 : calculateFitness? exDs4 1 exPlan4 = some (-39500) := by
  rw [calculateFitness?, exPlan4_profit1, exPlan4_penalty]
  norm_num

theorem exPlan4_fitness2 : calculateFitness? exDs4 2 exPlan4 = some (-39500) := by
  rw [calculateFitness?, exPlan4_profit2, exPlan4_penalty]
  norm_num

/-- C4 (counterexample): on the spec's end-to-end scenario dataset the
fitness is not 10500 under either scenario — the concentration rule
fires (crop 5 is grown on a single plot, fewer than 2), subtracting
50000. -/
theorem scenario_example_fitness_not_10500 :
    calculateFitness? exDs4 1 exPlan4 = some (-39500) ∧
    calculateFitness? exDs4 2 exPlan4 = some (-39500) ∧
    ¬ calculateFitness? exDs4 1 exPlan4 = some 10500 := by
  refine ⟨exPlan4_fitness1, exPlan4_fitness2, ?_⟩
  rw [exPlan4_fitness1]
  norm_num

/-- C4 (amended): on the spec's end-to-end scenario dataset the profit is
10500 under both scenarios (revenue 12500, cost 2000), but the
concentration penalty of 50000 for a crop grown on only one plot makes
the fitness -39500 under both scenarios. -/
theorem scenario_example_fitness_amended :
    totalProfit? exDs4 1 exPlan4 = some 10500 ∧
    totalProfit? exDs4 2 exPlan4 = some 10500 ∧
    constraintPenalty? exDs4 exPlan4 = some 50000 ∧
    calculateFitness? exDs4 1 exPlan4 = some (-39500) ∧
    calculateFitness? exDs4 2 exPlan4 = some (-39500) :=
  ⟨exPlan4_profit1, exPlan4_profit2, exPlan4_penalty, exPlan4_fitness1, exPlan4_fitness2⟩

/-!
Concrete run of the local search (claims C1, C2): one flat-dry plot of
area 1, bean grain crop 1 (costable, profit 20) and non-bean grain crop
2 (no stats entry, and planting it loses the rotation discount).  The
single trial regenerates the plot-year to crop 2, which lowers fitness,
so the candidate is rejected — but the shallow `dict.copy()` has already
written the mutation through to the best plan.
-/

def exDsLS : Dataset :=
  { lands := [(0, { ltype := LandType.flatDry, area := 1 })]
    crops := [(1, { ctype := typeGrainBean }), (2, { ctype := grainMarker })]
    stats := [((1, LandType.flatDry, Season.single),
      { yieldPerMu := 10, costPerMu := 0, minPrice := 2, maxPrice := 2 })]
    expectedSales := [] }

def ypA : YearPlan := ⟨some ⟨1, 1⟩, none, none⟩

def ypB : YearPlan := ⟨some ⟨2, 1⟩, none, none⟩

def exPlanLS : Plan := [(0, [ypA])]

def exPlanLS2 : Plan := [(0, [ypB])]

/-- The sampled plot 0, year draw 0, and a regeneration stream whose
single draw picks index 1 of the grain list `[1, 2]`, i.e. crop 2. -/
def exTC : TrialChoice := ⟨0, 0, [1]⟩

theorem exPlanLS_fitness : calculateFitness? exDsLS 1 exPlanLS = some (-49980) := by
  have hland : alookup exDsLS.lands 0 = some ⟨LandType.flatDry, 1⟩ := by decide
  have hyear : yearProfit exDsLS 1 LandType.flatDry ypA = 20 := by
    norm_num [yearProfit, yearCells, ypA, cellProfit, cellRevenue, meanPrice, seasonList,
      YearPlan.get, List.filterMap_cons, List.filterMap_nil, alookup, exDsLS, min_def, max_def]
  have hp : totalProfit? exDsLS 1 exPlanLS = some 20 := by
    simp [totalProfit?, exPlanLS, hland, hyear]
  have h1 : ((stratumLands [(0, [ypA])] 0 Season.single).map Prod.fst).dedup = [1] := by decide
  have h2 : ((stratumLands [(0, [ypA])] 0 Season.first).map Prod.fst).dedup = [] := by decide
  have h3 : ((stratumLands [(0, [ypA])] 0 Season.second).map Prod.fst).dedup = [] := by decide
  have h4 : stratumCropPlotCount [(0, [ypA])] 0 Season.single 1 = 1 := by decide
  have h5 : plotHasBean exDsLS [ypA] = true := by decide
  have hconc : concentrationPenalty? [(0, [ypA])] = some 50000 := by
    norm_num [concentrationPenalty?, stratumPenalty, h1, h2, h3, h4, cropStratumPenalty,
      List.range_succ, seasonList]
  have hrot : rotationPenalty exDsLS [(0, [ypA])] = 0 := by
    simp [rotationPenalty, h5]
  have hrep : replantPenalty [(0, [ypA])] = 0 := by
    have h6 : plotCropSeq [ypA] = [1] := by decide
    simp [replantPenalty, h6, replantCount]
  have hmin : minAreaPenalty [(0, [ypA])] = 0 := by
    have h7 : yearCells ypA = [(Season.single, ⟨1, 1⟩)] := by decide
    norm_num [minAreaPenalty, h7]
  have hpen : constraintPenalty? exDsLS exPlanLS = some 50000 := by
    norm_num [constraintPenalty?, exPlanLS, hconc, hrot, hrep, hmin]
  rw [calculateFitness?, hp, hpen]
  norm_num

theorem exPlanLS2_fitness : calculateFitness? exDsLS 1 exPlanLS2 = some (-150000) := by
  have hland : alookup exDsLS.lands 0 = some ⟨LandType.flatDry, 1⟩ := by decide
  have hyear : yearProfit exDsLS 1 LandType.flatDry ypB = 0 := by
    norm_num [yearProfit, yearCells, ypB, cellProfit, cellRevenue, meanPrice, seasonList,
      YearPlan.get, List.filterMap_cons, List.filterMap_nil, alookup, exDsLS, min_def, max_def]
  have hp : totalProfit? exDsLS 1 exPlanLS2 = some 0 := by
    simp [totalProfit?, exPlanLS2, hland, hyear]
  have h1 : ((stratumLands [(0, [ypB])] 0 Season.single).map Prod.fst).dedup = [2] := by decide
  have h2 : ((stratumLands [(0, [ypB])] 0 Season.first).map Prod.fst).dedup = [] := by decide
  have h3 : ((stratumLands [(0, [ypB])] 0 Season.second).map Prod.fst).dedup = [] := by decide
  have h4 : stratumCropPlotCount [(0, [ypB])] 0 Season.single 2 = 1 := by decide
  have h5 : plotHasBean exDsLS [ypB] = false := by decide
  have hconc : concentrationPenalty? [(0, [ypB])] = some 50000 := by
    norm_num [concentrationPenalty?, stratumPenalty, h1, h2, h3, h4, cropStratumPenalty,
      List.range_succ, seasonList]
  have hrot : rotationPenalty exDsLS [(0, [ypB])] = 100000 := by
    simp [rotationPenalty, h5]
  have hrep : replantPenalty [(0, [ypB])] = 0 := by
    have h6 : plotCropSeq [ypB] = [2] := by decide
    simp [replantPenalty, h6, replantCount]
  have hmin : minAreaPenalty [(0, [ypB])] = 0 := by
    have h7 : yearCells ypB = [(Season.single, ⟨2, 1⟩)] := by decide
    norm_num [minAreaPenalty, h7]
  have hpen : constraintPenalty? exDsLS exPlanLS2 = some 150000 := by
    norm_num [constraintPenalty?, exPlanLS2, hconc, hrot, hrep, hmin]
  rw [calculateFitness?, hp, hpen]
  norm_num

theorem exTC_trial :
    localSearchTrial? exDsLS 1 exPlanLS (-49980) exTC = some (exPlanLS2, -49980, false) := by
  have halk : alookup exPlanLS 0 = some [ypA] := by decide
  have hland : alookup exDsLS.lands 0 = some ⟨LandType.flatDry, 1⟩ := by decide
  have hregen : (regenYearPlan exDsLS LandType.flatDry 1 [1]).1 = ypB := by decide
  have hset : planSetYear exPlanLS 0 0 ypB = exPlanLS2 := by decide
  have hlt : ¬ ((-49980 : ℚ) < -150000) := by norm_num
  simp [localSearchTrial?, exTC, halk, hland, hregen, hset, exPlanLS2_fitness, hlt]

theorem exTC_pass :
    localSearchPass? exDsLS 1 exPlanLS (-49980) [exTC] = some (exPlanLS2, -49980, false) := by
  simp [localSearchPass?, exTC_trial]

/-- C2: a candidate mutation that is evaluated and rejected (fitness
-150000, not above the current best -49980, acceptance flag `false`)
nevertheless changes the best plan: the shallow `best_solution.copy()`
shares the per-plot dicts, so the cleared-and-regenerated cells write
through.  Plot 0, year 0, single season holds crop 1 before the trial
and crop 2 after it. -/
theorem rejected_mutation_corrupts_best_plan :
    localSearchPass? exDsLS 1 exPlanLS (-49980) [exTC] = some (exPlanLS2, -49980, false) ∧
    ¬ exPlanLS2 = exPlanLS ∧
    ¬ (alookup exPlanLS2 0).bind (fun yl => (yl.headD emptyYP).sSingle) =
      (alookup exPlanLS 0).bind fun yl => (yl.headD emptyYP).sSingle := by
  refine ⟨exTC_pass, by decide, by decide⟩

theorem lsLoop?_stop (ds : Dataset) (sc : Nat) (fuel : Nat)
    (passes : List (List TrialChoice)) (plan p2 : Plan) (fit f2 : ℚ)
    (h : localSearchPass? ds sc plan fit (passes.headD []) = some (p2, f2, false)) :
    lsLoop? ds sc (Nat.succ fuel) passes plan fit = some (p2, f2) := by
  rw [lsLoop?, h]
  simp

theorem exLS_run :
    simpleLocalSearch? exDsLS 1 exPlanLS [[exTC]] = some (exPlanLS2, -49980) := by
  rw [simpleLocalSearch?, exPlanLS_fitness]
  rw [show (100 : Nat) = Nat.succ 99 from rfl]
  exact lsLoop?_stop exDsLS 1 99 [[exTC]] exPlanLS exPlanLS2 (-49980) (-49980) exTC_pass

/-- C1: the local search is not fitness-monotone.  On this input plan
(fitness -49980) the search performs one rejected trial and returns a
plan whose fitness is -150000 < -49980: the rejected mutation leaked
into the returned plan through the shallow copy, while the reported
best fitness stays at the stale -49980. -/
theorem local_search_returns_lower_fitness :
    simpleLocalSearch? exDsLS 1 exPlanLS [[exTC]] = some (exPlanLS2, -49980) ∧
    calculateFitness? exDsLS 1 exPlanLS = some (-49980) ∧
    calculateFitness? exDsLS 1 exPlanLS2 = some (-150000) ∧
    ¬ ((-49980 : ℚ) ≤ -150000) := by
  refine ⟨exLS_run, exPlanLS_fitness, exPlanLS2_fitness, by norm_num⟩

/-!
Claim C5: the validator's concentration check does not mirror penalty
rule 3.  The check aggregates distinct plots per crop over ALL years and
seasons and has no maximum test, while the penalty works per
(year, season) stratum.  Crop 5 below is planted on plot 10 in year 0
and on plot 11 in year 1: globally two plots (check passes with
min_plots = 2), but each stratum has it on a single plot (penalty
2 × 50000).
-/

def ypC : YearPlan := ⟨some ⟨5, 1⟩, none, none⟩

def cexC5 : Plan := [(10, [ypC, emptyYP]), (11, [emptyYP, ypC])]

theorem cexC5_penalty : concentrationPenalty? cexC5 = some 100000 := by
  have h1 : ((stratumLands cexC5 0 Season.single).map Prod.fst).dedup = [5] := by decide
  have h2 : ((stratumLands cexC5 0 Season.first).map Prod.fst).dedup = [] := by decide
  have h3 : ((stratumLands cexC5 0 Season.second).map Prod.fst).dedup = [] := by decide
  have h4 : ((stratumLands cexC5 1 Season.single).map Prod.fst).dedup = [5] := by decide
  have h5 : ((stratumLands cexC5 1 Season.first).map Prod.fst).dedup = [] := by decide
  have h6 : ((stratumLands cexC5 1 Season.second).map Prod.fst).dedup = [] := by decide
  have h7 : stratumCropPlotCount cexC5 0 Season.single 5 = 1 := by decide
  have h8 : stratumCropPlotCount cexC5 1 Season.single 5 = 1 := by decide
  have hlen : cexC5 = (10, [ypC, emptyYP]) :: [(11, [emptyYP, ypC])] := rfl
  rw [hlen, concentrationPenalty?]
  rw [← hlen]
  norm_num [stratumPenalty, h1, h2, h3, h4, h5, h6, h7, h8, cropStratumPenalty,
    List.range_succ, seasonList, ypC]

/-- C5 (counterexample): a plan on which the validator's concentration
check passes with the matching threshold `min_plots = 2` while penalty
rule 3 contributes a positive penalty (100000), so the boolean check
does not mirror the penalty rule. -/
theorem concentration_check_not_mirror_penalty :
    validateConcentration cexC5 2 = true ∧ ¬ concentrationPenalty? cexC5 = some 0 := by
  refine ⟨by decide, ?_⟩
  rw [cexC5_penalty]
  norm_num

/-!
Claim C9: the irrigated paddy-rice branch hardcodes crop id 18 and never
checks that it exists; on a dataset without crop 18 the generated plan
references a crop id outside the Crop set.
-/

def cexDs9 : Dataset :=
  { lands := [(0, { ltype := LandType.irrigated, area := 1 })]
    crops := [(7, { ctype := vegType })]
    stats := []
    expectedSales := [] }

/-- C9 (counterexample): with a dataset whose crop set lacks id 18, a
generator run whose irrigated coin picks the rice branch produces a cell
whose crop id 18 is not in the Crop set. -/
theorem generator_references_missing_rice :
    (generateInitialSolution cexDs9 1 [0]).1 = [(0, [⟨some ⟨18, 1⟩, none, none⟩])] ∧
    alookup cexDs9.crops 18 = none :=
  ⟨by decide, by decide⟩

/-! Machinery for the concentration penalty (claims C5, C6). -/

theorem sum_eq_zero_iff_of_nonneg (l : List ℚ) (h : ∀ x ∈ l, 0 ≤ x) :
    l.sum = 0 ↔ ∀ x ∈ l, x = 0 := by
  induction l with
  | nil => simp
  | cons a t ih =>
      have ha : 0 ≤ a := h a (by simp)
      have ht : ∀ x ∈ t, 0 ≤ x := fun x hx => h x (by simp [hx])
      have hts : 0 ≤ t.sum := List.sum_nonneg ht
      rw [List.sum_cons]
      rw [add_eq_zero_iff_of_nonneg ha hts, ih ht]
      constructor
      · rintro ⟨h0, hall⟩ x hx
        rcases List.mem_cons.mp hx with hx | hx
        · rw [hx]; exact h0
        · exact hall x hx
      · intro hall
        exact ⟨hall a (by simp), fun x hx => hall x (by simp [hx])⟩

theorem cropStratumPenalty_nonneg (n : Nat) : 0 ≤ cropStratumPenalty n := by
  rw [cropStratumPenalty]
  split
  · have hn : (n : ℚ) < 2 := by exact_mod_cast (by assumption : n < 2)
    nlinarith
  · split
    · have hn : (8 : ℚ) < n := by exact_mod_cast (by assumption : 8 < n)
      nlinarith
    · exact le_refl 0

theorem cropStratumPenalty_eq_zero_iff (n : Nat) :
    cropStratumPenalty n = 0 ↔ 2 ≤ n ∧ n ≤ 8 := by
  rw [cropStratumPenalty]
  by_cases h1 : n < 2
  · have hn : (n : ℚ) < 2 := by exact_mod_cast h1
    simp only [h1, if_true]
    constructor
    · intro h; nlinarith
    · rintro ⟨h2, _⟩; omega
  · by_cases h8 : 8 < n
    · have hn : (8 : ℚ) < n := by exact_mod_cast h8
      simp only [h1, h8, if_false, if_true]
      constructor
      · intro h; nlinarith
      · rintro ⟨_, h2⟩; omega
    · simp only [h1, h8, if_false]
      constructor
      · intro _; omega
      · intro _; trivial

theorem stratumPenalty_nonneg (plan : Plan) (y : Nat) (s : Season) :
    0 ≤ stratumPenalty plan y s := by
  apply List.sum_nonneg
  intro x hx
  rcases List.mem_map.mp hx with ⟨cid, _, rfl⟩
  exact cropStratumPenalty_nonneg _

theorem stratumPenalty_eq_zero_iff (plan : Plan) (y : Nat) (s : Season) :
    stratumPenalty plan y s = 0 ↔
      ∀ cid ∈ (stratumLands plan y s).map Prod.fst,
        2 ≤ stratumCropPlotCount plan y s cid ∧ stratumCropPlotCount plan y s cid ≤ 8 := by
  rw [stratumPenalty]
  rw [sum_eq_zero_iff_of_nonneg]
  · constructor
    · intro h cid hcid
      have hmem : cid ∈ ((stratumLands plan y s).map Prod.fst).dedup := List.mem_dedup.mpr hcid
      have := h (cropStratumPenalty (stratumCropPlotCount plan y s cid))
        (List.mem_map.mpr ⟨cid, hmem, rfl⟩)
      exact (cropStratumPenalty_eq_zero_iff _).mp this
    · intro h x hx
      rcases List.mem_map.mp hx with ⟨cid, hcid, rfl⟩
      exact (cropStratumPenalty_eq_zero_iff _).mpr (h cid (List.mem_dedup.mp hcid))
  · intro x hx
    rcases List.mem_map.mp hx with ⟨cid, _, rfl⟩
    exact cropStratumPenalty_nonneg _

theorem season_mem_seasonList (s : Season) : s ∈ seasonList := by
  cases s <;> simp [seasonList]

theorem concentrationPenalty?_eq_zero_iff (p0 : Nat × List YearPlan) (rest : Plan) :
    concentrationPenalty? (p0 :: rest) = some 0 ↔
      ∀ y < p0.2.length, ∀ s : Season, stratumPenalty (p0 :: rest) y s = 0 := by
  rw [concentrationPenalty?, Option.some_inj]
  rw [sum_eq_zero_iff_of_nonneg]
  · constructor
    · intro h y hy s
      have hmem := h ((seasonList.map fun s => stratumPenalty (p0 :: rest) y s).sum)
        (List.mem_map.mpr ⟨y, List.mem_range.mpr hy, rfl⟩)
      have h2 := (sum_eq_zero_iff_of_nonneg _ ?_).mp hmem
      · exact h2 _ (List.mem_map.mpr ⟨s, season_mem_seasonList s, rfl⟩)
      · intro x hx
        rcases List.mem_map.mp hx with ⟨s2, _, rfl⟩
        exact stratumPenalty_nonneg _ _ _
    · intro h x hx
      rcases List.mem_map.mp hx with ⟨y, hy, rfl⟩
      apply (sum_eq_zero_iff_of_nonneg _ ?_).mpr
      · intro x hx
        rcases List.mem_map.mp hx with ⟨s2, _, rfl⟩
        exact h y (List.mem_range.mp hy) s2
      · intro x hx
        rcases List.mem_map.mp hx with ⟨s2, _, rfl⟩
        exact stratumPenalty_nonneg _ _ _
  · intro x hx
    rcases List.mem_map.mp hx with ⟨y, _, rfl⟩
    apply List.sum_nonneg
    intro x hx
    rcases List.mem_map.mp hx with ⟨s2, _, rfl⟩
    exact stratumPenalty_nonneg _ _ _

theorem stratumLands_eq_nil (plan : Plan) (y : Nat) (s : Season)
    (h : ∀ p ∈ plan, p.2.length ≤ y) : stratumLands plan y s = [] := by
  rw [stratumLands, List.filterMap_eq_nil_iff]
  intro p hp
  have : p.2.get? y = none := List.get?_eq_none.mpr (h p hp)
  rw [this]
  rfl

/-- C6: for a nonempty plan in which every plot has the same number of
years (the Plan data model), the concentration penalty is zero iff in
every (year, season) stratum every crop that appears there is grown on
at least 2 and at most 8 distinct plots. -/
theorem concentration_penalty_zero_iff (p0 : Nat × List YearPlan) (rest : Plan)
    (huni : ∀ p ∈ (p0 :: rest : Plan), p.2.length = p0.2.length) :
    concentrationPenalty? (p0 :: rest) = some 0 ↔
      ∀ (y : Nat) (s : Season), ∀ cid ∈ (stratumLands (p0 :: rest) y s).map Prod.fst,
        2 ≤ stratumCropPlotCount (p0 :: rest) y s cid ∧
        stratumCropPlotCount (p0 :: rest) y s cid ≤ 8 := by
  rw [concentrationPenalty?_eq_zero_iff]
  constructor
  · intro h y s cid hcid
    by_cases hy : y < p0.2.length
    · exact (stratumPenalty_eq_zero_iff _ _ _).mp (h y hy s) cid hcid
    · exfalso
      have hnil : stratumLands (p0 :: rest) y s = [] :=
        stratumLands_eq_nil _ _ _ (fun p hp => by rw [huni p hp]; omega)
      rw [hnil] at hcid
      simp at hcid
  · intro h y _ s
    exact (stratumPenalty_eq_zero_iff _ _ _).mpr (h y s)

/-- The two-plot plan both planting crop 5 in year 0, used as witness. -/
def wPlanC6 : Plan := [(10, [ypC]), (11, [ypC])]

/-- C6 witness: on the concrete two-plot plan the equivalence is
obtained from the theorem, both sides holding. -/
theorem concentration_penalty_zero_iff_witness :
    (concentrationPenalty? ((10, [ypC]) :: [(11, [ypC])]) = some 0 ↔
      ∀ (y : Nat) (s : Season),
        ∀ cid ∈ (stratumLands ((10, [ypC]) :: [(11, [ypC])]) y s).map Prod.fst,
          2 ≤ stratumCropPlotCount ((10, [ypC]) :: [(11, [ypC])]) y s cid ∧
          stratumCropPlotCount ((10, [ypC]) :: [(11, [ypC])]) y s cid ≤ 8) :=
  concentration_penalty_zero_iff (10, [ypC]) [(11, [ypC])] (by decide)

/-! Membership characterisations used to relate the per-stratum penalty
scan and the validator's global scan (claim C5). -/

theorem mem_stratumLands (plan : Plan) (y : Nat) (s : Season) (pr : Nat × Nat) :
    pr ∈ stratumLands plan y s ↔
      ∃ p ∈ plan, ∃ yp, p.2.get? y = some yp ∧ ∃ c, yp.get s = some c ∧ pr = (c.cropId, p.1) := by
  rw [stratumLands, List.mem_filterMap]
  constructor
  · rintro ⟨p, hp, hsome⟩
    rcases hyp : p.2.get? y with _ | yp
    · rw [hyp] at hsome; simp at hsome
    · rw [hyp] at hsome
      simp only [Option.some_bind] at hsome
      rcases hc : yp.get s with _ | c
      · rw [hc] at hsome; simp at hsome
      · rw [hc] at hsome
        simp only [Option.map_some'] at hsome
        exact ⟨p, hp, yp, hyp, c, hc, (Option.some_inj.mp hsome).symm⟩
  · rintro ⟨p, hp, yp, hyp, c, hc, rfl⟩
    refine ⟨p, hp, ?_⟩
    rw [hyp]
    simp only [Option.some_bind]
    rw [hc]
    rfl

theorem mem_globalPairs (plan : Plan) (pr : Nat × Nat) :
    pr ∈ globalPairs plan ↔
      ∃ p ∈ plan, ∃ y, y < p.2.length ∧
        ∃ yp, p.2.get? y = some yp ∧ ∃ s, ∃ c, yp.get s = some c ∧ pr = (c.cropId, p.1) := by
  rw [globalPairs, List.mem_flatMap]
  constructor
  · rintro ⟨p, hp, hmem⟩
    rcases List.mem_flatMap.mp hmem with ⟨y, hy, hmem2⟩
    rcases List.mem_filterMap.mp hmem2 with ⟨s, _, hsome⟩
    rcases hyp : p.2.get? y with _ | yp
    · rw [hyp] at hsome; simp at hsome
    · rw [hyp] at hsome
      simp only [Option.some_bind] at hsome
      rcases hc : yp.get s with _ | c
      · rw [hc] at hsome; simp at hsome
      · rw [hc] at hsome
        simp only [Option.map_some'] at hsome
        exact ⟨p, hp, y, List.mem_range.mp hy, yp, hyp, s, c, hc, (Option.some_inj.mp hsome).symm⟩
  · rintro ⟨p, hp, y, hy, yp, hyp, s, c, hc, rfl⟩
    refine ⟨p, hp, List.mem_flatMap.mpr ⟨y, List.mem_range.mpr hy, ?_⟩⟩
    refine List.mem_filterMap.mpr ⟨s, season_mem_seasonList s, ?_⟩
    rw [hyp]
    simp only [Option.some_bind]
    rw [hc]
    rfl

theorem stratumLands_subset_globalPairs (plan : Plan) (y : Nat) (s : Season)
    (pr : Nat × Nat) (h : pr ∈ stratumLands plan y s) : pr ∈ globalPairs plan := by
  rcases (mem_stratumLands plan y s pr).mp h with ⟨p, hp, yp, hyp, c, hc, rfl⟩
  have hy : y < p.2.length := List.get?_eq_some.mp hyp |>.1
  exact (mem_globalPairs plan _).mpr ⟨p, hp, y, hy, yp, hyp, s, c, hc, rfl⟩

theorem stratum_count_le_global (plan : Plan) (y : Nat) (s : Season) (cid : Nat) :
    stratumCropPlotCount plan y s cid ≤ globalCropPlotCount plan cid := by
  rw [stratumCropPlotCount, globalCropPlotCount]
  apply Finset.card_le_card
  intro a ha
  rw [List.mem_toFinset] at ha ⊢
  rcases List.mem_map.mp ha with ⟨pr, hpr, rfl⟩
  rcases List.mem_filter.mp hpr with ⟨hmem, hfst⟩
  exact List.mem_map.mpr ⟨pr, List.mem_filter.mpr
    ⟨stratumLands_subset_globalPairs plan y s pr hmem, hfst⟩, rfl⟩

/-- C5 (amended): with the matching threshold `min_plots = 2` and a
uniform-horizon plan, zero concentration penalty implies that the
validator's check passes; the converse fails (see the counterexample):
the check aggregates distinct plots over all strata and has no maximum
test, so it does not mirror penalty rule 3. -/
theorem penalty_zero_implies_concentration_check (p0 : Nat × List YearPlan) (rest : Plan)
    (huni : ∀ p ∈ (p0 :: rest : Plan), p.2.length = p0.2.length)
    (hzero : concentrationPenalty? (p0 :: rest) = some 0) :
    validateConcentration (p0 :: rest) 2 = true := by
  rw [validateConcentration, List.all_eq_true]
  intro cid hcid
  rw [decide_eq_true_iff]
  have hcid2 : cid ∈ (globalPairs (p0 :: rest)).map Prod.fst := List.mem_dedup.mp hcid
  rcases List.mem_map.mp hcid2 with ⟨pr, hpr, rfl⟩
  rcases (mem_globalPairs _ pr).mp hpr with ⟨p, hp, y, hy, yp, hyp, s, c, hc, rfl⟩
  have hyl : y < p0.2.length := by rw [← huni p hp]; exact hy
  have hstr : (c.cropId, p.1) ∈ stratumLands (p0 :: rest) y s :=
    (mem_stratumLands _ _ _ _).mpr ⟨p, hp, yp, hyp, c, hc, rfl⟩
  have hzs := (concentrationPenalty?_eq_zero_iff p0 rest).mp hzero y hyl s
  have hb := (stratumPenalty_eq_zero_iff _ _ _).mp hzs c.cropId
    (List.mem_map.mpr ⟨(c.cropId, p.1), hstr, rfl⟩)
  exact le_trans hb.1 (stratum_count_le_global (p0 :: rest) y s c.cropId)

theorem wPlanC6_penalty : concentrationPenalty? ((10, [ypC]) :: [(11, [ypC])]) = some 0 := by
  have h1 : ((stratumLands ((10, [ypC]) :: [(11, [ypC])]) 0 Season.single).map Prod.fst).dedup
      = [5] := by decide
  have h2 : ((stratumLands ((10, [ypC]) :: [(11, [ypC])]) 0 Season.first).map Prod.fst).dedup
      = [] := by decide
  have h3 : ((stratumLands ((10, [ypC]) :: [(11, [ypC])]) 0 Season.second).map Prod.fst).dedup
      = [] := by decide
  have h4 : stratumCropPlotCount ((10, [ypC]) :: [(11, [ypC])]) 0 Season.single 5 = 2 := by
    decide
  rw [concentrationPenalty?]
  norm_num [stratumPenalty, h1, h2, h3, h4, cropStratumPenalty, List.range_succ, seasonList]

/-- C5 witness: on the two-plot crop-5 plan the penalty is zero and the
theorem yields that the validator's concentration check passes. -/
theorem penalty_zero_implies_concentration_check_witness :
    validateConcentration ((10, [ypC]) :: [(11, [ypC])]) 2 = true :=
  penalty_zero_implies_concentration_check (10, [ypC]) [(11, [ypC])] (by decide) wPlanC6_penalty

/-! Claim C3: the markdown scenario never earns less than shortage. -/

theorem alookup_mem {κ α : Type} [DecidableEq κ] (l : List (κ × α)) (k : κ) (v : α)
    (h : alookup l k = some v) : (k, v) ∈ l := by
  induction l with
  | nil => simp [alookup] at h
  | cons p rest ih =>
      rw [alookup] at h
      by_cases hk : p.1 = k
      · rw [if_pos hk] at h
        have hv : p.2 = v := Option.some_inj.mp h
        have : (k, v) = p := by rw [← hk, ← hv]
        rw [this]
        exact List.mem_cons_self p rest
      · rw [if_neg hk] at h
        exact List.mem_cons_of_mem p (ih h)

theorem cellRevenue_le (ds : Dataset) (cid : Nat) (ty price : ℚ) (hp : 0 ≤ price) :
    cellRevenue ds 1 cid ty price ≤ cellRevenue ds 2 cid ty price := by
  rw [cellRevenue, cellRevenue]
  cases halk : alookup ds.expectedSales cid with
  | none => exact le_refl _
  | some e =>
      norm_num
      have h1 : 0 ≤ max 0 (ty - e) := le_max_left 0 (ty - e)
      nlinarith [mul_nonneg (mul_nonneg h1 hp) (by norm_num : (0 : ℚ) ≤ 1 / 2)]

theorem cellProfit_le (ds : Dataset)
    (hp : ∀ e ∈ ds.stats, 0 ≤ e.2.minPrice ∧ 0 ≤ e.2.maxPrice)
    (lt : LandType) (s : Season) (c : Cell) :
    cellProfit ds 1 lt s c ≤ cellProfit ds 2 lt s c := by
  rw [cellProfit, cellProfit]
  cases hst : alookup ds.stats (c.cropId, lt, s) with
  | none => exact le_refl _
  | some st =>
      have hmem : ((c.cropId, lt, s), st) ∈ ds.stats := alookup_mem _ _ _ hst
      have h1 := hp _ hmem
      have hpr : 0 ≤ meanPrice st := by
        rw [meanPrice]
        rcases h1 with ⟨ha, hb⟩
        linarith
      have := cellRevenue_le ds c.cropId (st.yieldPerMu * c.area) (meanPrice st) hpr
      show cellRevenue ds 1 c.cropId (st.yieldPerMu * c.area) (meanPrice st) -
          st.costPerMu * c.area ≤
        cellRevenue ds 2 c.cropId (st.yieldPerMu * c.area) (meanPrice st) - st.costPerMu * c.area
      linarith

theorem yearProfit_le (ds : Dataset)
    (hp : ∀ e ∈ ds.stats, 0 ≤ e.2.minPrice ∧ 0 ≤ e.2.maxPrice)
    (lt : LandType) (yp : YearPlan) :
    yearProfit ds 1 lt yp ≤ yearProfit ds 2 lt yp := by
  rw [yearProfit, yearProfit]
  apply List.sum_le_sum
  intro pr _
  exact cellProfit_le ds hp lt pr.1 pr.2

theorem totalProfit?_le (ds : Dataset)
    (hp : ∀ e ∈ ds.stats, 0 ≤ e.2.minPrice ∧ 0 ≤ e.2.maxPrice) (plan : Plan) :
    ∀ v1, totalProfit? ds 1 plan = some v1 →
      ∃ v2, totalProfit? ds 2 plan = some v2 ∧ v1 ≤ v2 := by
  induction plan with
  | nil =>
      intro v1 h
      rw [totalProfit?] at h
      exact ⟨0, rfl, le_of_eq (Option.some_inj.mp h).symm⟩
  | cons p rest ih =>
      intro v1 h
      rw [totalProfit?] at h
      cases hland : alookup ds.lands p.1 with
      | none => rw [hland] at h; exact absurd h (by simp)
      | some li =>
          rw [hland] at h
          cases hrest : totalProfit? ds 1 rest with
          | none => rw [hrest] at h; exact absurd h (by simp)
          | some acc =>
              rw [hrest] at h
              obtain ⟨acc2, hacc2, hle⟩ := ih acc hrest
              refine ⟨(p.2.map (yearProfit ds 2 li.ltype)).sum + acc2, ?_, ?_⟩
              · rw [totalProfit?, hland, hacc2]
              · have hv : v1 = (p.2.map (yearProfit ds 1 li.ltype)).sum + acc :=
                  (Option.some_inj.mp h).symm
                rw [hv]
                apply add_le_add ?_ hle
                apply List.sum_le_sum
                intro yp _
                exact yearProfit_le ds hp li.ltype yp

/-- C3: for any dataset whose price bands are nonnegative, the revenue
of every cell under the markdown scenario (2) is at least its revenue
under the shortage scenario (1) — the markdown branch adds the
nonnegative half-price excess term — and consequently per-cell profit
and the total profit of any plan are at least as large under markdown. -/
theorem markdown_revenue_ge_shortage (ds : Dataset)
    (hp : ∀ e ∈ ds.stats, 0 ≤ e.2.minPrice ∧ 0 ≤ e.2.maxPrice) :
    (∀ (cid : Nat) (ty price : ℚ), 0 ≤ price →
        cellRevenue ds 1 cid ty price ≤ cellRevenue ds 2 cid ty price) ∧
    (∀ (lt : LandType) (s : Season) (c : Cell),
        cellProfit ds 1 lt s c ≤ cellProfit ds 2 lt s c) ∧
    (∀ (plan : Plan) (v1 : ℚ), totalProfit? ds 1 plan = some v1 →
        ∃ v2, totalProfit? ds 2 plan = some v2 ∧ v1 ≤ v2) :=
  ⟨fun cid ty price h => cellRevenue_le ds cid ty price h,
   fun lt s c => cellProfit_le ds hp lt s c,
   fun plan v1 h => totalProfit?_le ds hp plan v1 h⟩

/-- C3 witness: the theorem applied to the concrete scenario dataset and
its single cell. -/
theorem markdown_revenue_ge_shortage_witness :
    cellProfit exDs4 1 LandType.irrigated Season.single ⟨5, 10⟩ ≤
      cellProfit exDs4 2 LandType.irrigated Season.single ⟨5, 10⟩ :=
  (markdown_revenue_ge_shortage exDs4 (by decide)).2.1 LandType.irrigated Season.single ⟨5, 10⟩

/-! Claim C7: rotation violations. -/

/-- The validator's exact-tag bean test (`utils.py` line 138). -/
def beanExact (ds : Dataset) (cid : Nat) : Bool :=
  match alookup ds.crops cid with
  | some cr => decide (cr.ctype = typeGrainBean ∨ cr.ctype = typeVegBean)
  | none => false

theorem validateCells_eq (ds : Dataset) (cells : List Cell)
    (hwf : ∀ c ∈ cells, (alookup ds.crops c.cropId).isSome) :
    validateCells ds cells = some (cells.any fun c => beanExact ds c.cropId) := by
  induction cells with
  | nil => rfl
  | cons c rest ih =>
      obtain ⟨cr, hcr⟩ := Option.isSome_iff_exists.mp (hwf c (List.mem_cons_self c rest))
      rw [validateCells, hcr]
      show (if cr.ctype = typeGrainBean ∨ cr.ctype = typeVegBean then some true
        else validateCells ds rest) = some ((c :: rest).any fun c2 => beanExact ds c2.cropId)
      by_cases hb : cr.ctype = typeGrainBean ∨ cr.ctype = typeVegBean
      · rw [if_pos hb]
        have hbe : beanExact ds c.cropId = true := by
          rw [beanExact, hcr]
          exact decide_eq_true hb
        rw [List.any_cons, hbe]
        rfl
      · rw [if_neg hb]
        have hbe : beanExact ds c.cropId = false := by
          rw [beanExact, hcr]
          exact decide_eq_false hb
        rw [ih fun x hx => hwf x (List.mem_cons_of_mem c hx), List.any_cons, hbe]
        rfl

theorem beanExact_le_isBean (ds : Dataset) (cid : Nat) (h : beanExact ds cid = true) :
    isBean ds cid = true := by
  rw [beanExact] at h
  rw [isBean]
  cases hcr : alookup ds.crops cid with
  | none => rw [hcr] at h; exact absurd h (by simp)
  | some cr =>
      rw [hcr] at h
      show strContains cr.ctype beanMarker = true
      have hd : decide (cr.ctype = typeGrainBean ∨ cr.ctype = typeVegBean) = true := h
      rcases of_decide_eq_true hd with hb | hb <;> rw [hb] <;> decide

theorem mem_plotCellsUpTo (years : Nat) (yl : List YearPlan) (c : Cell)
    (h : c ∈ plotCellsUpTo years yl) :
    ∃ yp ∈ yl, ∃ pr ∈ yearCells yp, pr.2 = c := by
  rw [plotCellsUpTo] at h
  rcases List.mem_flatMap.mp h with ⟨y, _, hmem⟩
  cases hyp : yl.get? y with
  | none => rw [hyp] at hmem; cases hmem
  | some yp =>
      rw [hyp] at hmem
      rcases List.mem_map.mp hmem with ⟨pr, hpr, rfl⟩
      exact ⟨yp, List.get?_mem hyp, pr, hpr, rfl⟩

theorem validateRotation?_false (ds : Dataset) (plan : Plan) (years : Nat)
    (hwf : ∀ p ∈ plan, ∀ c ∈ plotCellsUpTo years p.2, (alookup ds.crops c.cropId).isSome)
    (q : Nat × List YearPlan) (hq : q ∈ plan)
    (hnob : ((plotCellsUpTo years q.2).any fun c => beanExact ds c.cropId) = false) :
    validateRotation? ds plan years = some false := by
  induction plan with
  | nil => cases hq
  | cons p rest ih =>
      rw [validateRotation?]
      rw [validateCells_eq ds _ (hwf p (List.mem_cons_self p rest))]
      rcases List.mem_cons.mp hq with rfl | hq2
      · rw [hnob]
      · cases hb : (plotCellsUpTo years p.2).any fun c => beanExact ds c.cropId
        · rfl
        · exact ih (fun r hr => hwf r (List.mem_cons_of_mem p hr)) hq2

theorem rotationPenalty_count (ds : Dataset) (plan : Plan) :
    rotationPenalty ds plan =
      100000 * ((plan.filter fun p => !(plotHasBean ds p.2)).length : ℚ) := by
  induction plan with
  | nil => simp [rotationPenalty]
  | cons p rest ih =>
      rw [rotationPenalty, List.map_cons, List.sum_cons]
      rw [rotationPenalty] at ih
      rw [List.filter_cons]
      cases hb : plotHasBean ds p.2 <;> simp [hb, ih] <;> push_cast <;> ring

/-- C7: a crop is a legume iff its category tag contains the marker 豆类
(`isBean`).  For a well-formed plan (every referenced crop exists, every
plot spans the full horizon `years`), a plot `q` with zero legume cells
makes `validate_rotation` return `False`; such a plot has
`plotHasBean = false`, and the rotation penalty equals 100000 times the
number of plots with no legume cell — i.e. the fixed penalty is added
exactly once per such plot. -/
theorem rotation_violation (ds : Dataset) (plan : Plan) (years : Nat)
    (hwf : ∀ p ∈ plan, ∀ c ∈ plotCellsUpTo years p.2, (alookup ds.crops c.cropId).isSome)
    (q : Nat × List YearPlan) (hq : q ∈ plan)
    (hnob : ∀ yp ∈ q.2, ∀ pr ∈ yearCells yp, isBean ds pr.2.cropId = false) :
    validateRotation? ds plan years = some false ∧
    plotHasBean ds q.2 = false ∧
    rotationPenalty ds plan =
      100000 * ((plan.filter fun p => !(plotHasBean ds p.2)).length : ℚ) := by
  have hnobB : ((plotCellsUpTo years q.2).any fun c => beanExact ds c.cropId) = false := by
    rw [List.any_eq_false]
    intro c hc
    rcases mem_plotCellsUpTo years q.2 c hc with ⟨yp, hyp, pr, hpr, rfl⟩
    intro hbe
    have := beanExact_le_isBean ds pr.2.cropId hbe
    rw [hnob yp hyp pr hpr] at this
    cases this
  refine ⟨validateRotation?_false ds plan years hwf q hq hnobB, ?_, rotationPenalty_count ds plan⟩
  rw [plotHasBean, List.any_eq_false]
  intro yp hyp
  rw [Bool.not_eq_true, List.any_eq_false]
  intro pr hpr
  rw [Bool.not_eq_true]
  exact hnob yp hyp pr hpr

/-- C7 witness: a one-plot plan planting only the non-legume grain crop
2 of `exDsLS`. -/
theorem rotation_violation_witness :
    validateRotation? exDsLS [(0, [ypB])] 1 = some false ∧
    plotHasBean exDsLS [ypB] = false ∧
    rotationPenalty exDsLS [(0, [ypB])] =
      100000 * (([(0, [ypB])].filter fun p => !(plotHasBean exDsLS p.2)).length : ℚ) :=
  rotation_violation exDsLS [(0, [ypB])] 1 (by decide) (0, [ypB]) (by decide) (by decide)

/-! Claims C8, C9: invariants of the constructive generator and the
local search's cell regeneration. -/

def cropKeys (ds : Dataset) : List Nat := ds.crops.map Prod.fst

theorem pickFrom_mem (l : List Nat) (n : Nat) (h : l.isEmpty = false) : pickFrom l n ∈ l := by
  have hne : l ≠ [] := by
    cases l
    · simp at h
    · simp
  have hpos : 0 < l.length := List.length_pos.mpr hne
  have hlt : n % l.length < l.length := Nat.mod_lt n hpos
  rw [pickFrom, List.getD_eq_getElem l 0 hlt]
  exact List.getElem_mem hlt

theorem grainCrops_subset (ds : Dataset) (cid : Nat) (h : cid ∈ grainCrops ds) :
    cid ∈ cropKeys ds := by
  rw [grainCrops] at h
  rcases List.mem_map.mp h with ⟨p, hp, rfl⟩
  exact List.mem_map.mpr ⟨p, List.mem_of_mem_filter hp, rfl⟩

theorem vegCrops_subset (ds : Dataset) (cid : Nat) (h : cid ∈ vegCrops ds) :
    cid ∈ cropKeys ds := by
  rw [vegCrops] at h
  rcases List.mem_map.mp h with ⟨p, hp, rfl⟩
  exact List.mem_map.mpr ⟨p, List.mem_of_mem_filter hp, rfl⟩

theorem isSome_mem_cropKeys (ds : Dataset) (cid : Nat)
    (h : (alookup ds.crops cid).isSome = true) : cid ∈ cropKeys ds := by
  obtain ⟨v, hv⟩ := Option.isSome_iff_exists.mp h
  exact List.mem_map.mpr ⟨(cid, v), alookup_mem _ _ _ hv, rfl⟩

theorem secondVegCrops_subset (ds : Dataset) (cid : Nat) (h : cid ∈ secondVegCrops ds) :
    cid ∈ cropKeys ds := by
  rw [secondVegCrops] at h
  exact isSome_mem_cropKeys ds cid (List.mem_filter.mp h).2

theorem mushroomCrops_subset (ds : Dataset) (cid : Nat) (h : cid ∈ mushroomCrops ds) :
    cid ∈ cropKeys ds := by
  rw [mushroomCrops] at h
  exact isSome_mem_cropKeys ds cid (List.mem_filter.mp h).2

/-- The candidate source a generated cell's crop id is drawn from, by
land type and season: the category-filtered lists of the source, and the
hardcoded paddy-rice id 18 for irrigated single-season cells. -/
def cropSourceOK (ds : Dataset) (lt : LandType) (s : Season) (cid : Nat) : Prop :=
  match lt, s with
  | LandType.flatDry, Season.single => cid ∈ grainCrops ds
  | LandType.terrace, Season.single => cid ∈ grainCrops ds
  | LandType.hillside, Season.single => cid ∈ grainCrops ds
  | LandType.irrigated, Season.single => cid = 18
  | LandType.irrigated, Season.first => cid ∈ vegCrops ds
  | LandType.irrigated, Season.second => cid ∈ secondVegCrops ds
  | LandType.normalGreenhouse, Season.first => cid ∈ vegCrops ds
  | LandType.normalGreenhouse, Season.second => cid ∈ mushroomCrops ds
  | LandType.smartGreenhouse, Season.first => cid ∈ vegCrops ds
  | LandType.smartGreenhouse, Season.second => cid ∈ vegCrops ds
  | _, _ => False

theorem emptyYP_get (s : Season) : emptyYP.get s = none := by
  cases s <;> rfl

theorem regenYearPlan_cells (ds : Dataset) (lt : LandType) (area : ℚ) (rs : RandStream)
    (s : Season) (c : Cell) (h : ((regenYearPlan ds lt area rs).1).get s = some c) :
    cropSourceOK ds lt s c.cropId ∧ c.area = area := by
  cases lt
  case flatDry | terrace | hillside =>
    by_cases hg : (grainCrops ds).isEmpty
    · simp only [regenYearPlan, hg, if_true] at h
      rw [emptyYP_get] at h
      cases h
    · rw [Bool.not_eq_true] at hg
      simp only [regenYearPlan, hg, Bool.false_eq_true, if_false] at h
      cases s <;> simp only [YearPlan.get, emptyYP] at h
      · rcases Option.some_inj.mp h with rfl
        exact ⟨pickFrom_mem _ _ hg, rfl⟩
      · cases h
      · cases h
  case irrigated =>
    by_cases hc : (draw rs).1 % 2 = 0
    · simp only [regenYearPlan, hc, if_true] at h
      cases s <;> simp only [YearPlan.get, emptyYP] at h
      · rcases Option.some_inj.mp h with rfl
        exact ⟨rfl, rfl⟩
      · cases h
      · cases h
    · simp only [regenYearPlan, hc, if_false] at h
      by_cases hv : (vegCrops ds).isEmpty <;> by_cases hsc : (secondVegCrops ds).isEmpty
      · simp only [hv, hsc, if_true] at h
        rw [emptyYP_get] at h
        cases h
      · rw [Bool.not_eq_true] at hsc
        simp only [hv, hsc, if_true, Bool.false_eq_true, if_false] at h
        cases s <;> simp only [YearPlan.get, emptyYP] at h
        · cases h
        · cases h
        · rcases Option.some_inj.mp h with rfl
          exact ⟨pickFrom_mem _ _ hsc, rfl⟩
      · rw [Bool.not_eq_true] at hv
        simp only [hv, hsc, if_true, Bool.false_eq_true, if_false] at h
        cases s <;> simp only [YearPlan.get, emptyYP] at h
        · cases h
        · rcases Option.some_inj.mp h with rfl
          exact ⟨pickFrom_mem _ _ hv, rfl⟩
        · cases h
      · rw [Bool.not_eq_true] at hv
        rw [Bool.not_eq_true] at hsc
        simp only [hv, hsc, Bool.false_eq_true, if_false] at h
        cases s <;> simp only [YearPlan.get, emptyYP] at h
        · cases h
        · rcases Option.some_inj.mp h with rfl
          exact ⟨pickFrom_mem _ _ hv, rfl⟩
        · rcases Option.some_inj.mp h with rfl
          exact ⟨pickFrom_mem _ _ hsc, rfl⟩
  case normalGreenhouse =>
    by_cases hv : (vegCrops ds).isEmpty <;> by_cases hm : (mushroomCrops ds).isEmpty
    · simp only [regenYearPlan, hv, hm, if_true] at h
      rw [emptyYP_get] at h
      cases h
    · rw [Bool.not_eq_true] at hm
      simp only [regenYearPlan, hv, hm, if_true, Bool.false_eq_true, if_false] at h
      cases s <;> simp only [YearPlan.get, emptyYP] at h
      · cases h
      · cases h
      · rcases Option.some_inj.mp h with rfl
        exact ⟨pickFrom_mem _ _ hm, rfl⟩
    · rw [Bool.not_eq_true] at hv
      simp only [regenYearPlan, hv, hm, if_true, Bool.false_eq_true, if_false] at h
      cases s <;> simp only [YearPlan.get, emptyYP] at h
      · cases h
      · rcases Option.some_inj.mp h with rfl
        exact ⟨pickFrom_mem _ _ hv, rfl⟩
      · cases h
    · rw [Bool.not_eq_true] at hv
      rw [Bool.not_eq_true] at hm
      simp only [regenYearPlan, hv, hm, Bool.false_eq_true, if_false] at h
      cases s <;> simp only [YearPlan.get, emptyYP] at h
      · cases h
      · rcases Option.some_inj.mp h with rfl
        exact ⟨pickFrom_mem _ _ hv, rfl⟩
      · rcases Option.some_inj.mp h with rfl
        exact ⟨pickFrom_mem _ _ hm, rfl⟩
  case smartGreenhouse =>
    by_cases hv : (vegCrops ds).isEmpty
    · simp only [regenYearPlan, hv, if_true] at h
      rw [emptyYP_get] at h
      cases h
    · rw [Bool.not_eq_true] at hv
      simp only [regenYearPlan, hv, Bool.false_eq_true, if_false] at h
      cases s <;> simp only [YearPlan.get, emptyYP] at h
      · cases h
      · rcases Option.some_inj.mp h with rfl
        exact ⟨pickFrom_mem _ _ hv, rfl⟩
      · rcases Option.some_inj.mp h with rfl
        exact ⟨pickFrom_mem _ _ hv, rfl⟩

/-- The single/two-season exclusivity of the irrigated branch: the coin
either produces the rice single-season cell or first/second cells. -/
theorem regenYearPlan_irrigated_excl (ds : Dataset) (area : ℚ) (rs : RandStream) :
    ((regenYearPlan ds LandType.irrigated area rs).1).sSingle = none ∨
      (((regenYearPlan ds LandType.irrigated area rs).1).sFirst = none ∧
        ((regenYearPlan ds LandType.irrigated area rs).1).sSecond = none) := by
  by_cases hc : (draw rs).1 % 2 = 0
  · simp only [regenYearPlan, hc, if_true]
    right
    exact ⟨rfl, rfl⟩
  · simp only [regenYearPlan, hc, if_false]
    by_cases hv : (vegCrops ds).isEmpty <;> by_cases hsc : (secondVegCrops ds).isEmpty <;>
      simp only [hv, hsc, if_true, Bool.false_eq_true, if_false] <;> left <;> rfl

theorem genYears_succ (ds : Dataset) (lt : LandType) (area : ℚ) (n : Nat) (rs : RandStream) :
    genYears ds lt area (Nat.succ n) rs =
      ((regenYearPlan ds lt area rs).1 ::
          (genYears ds lt area n (regenYearPlan ds lt area rs).2).1,
        (genYears ds lt area n (regenYearPlan ds lt area rs).2).2) := rfl

theorem genYears_mem (ds : Dataset) (lt : LandType) (area : ℚ) :
    ∀ (n : Nat) (rs : RandStream) (yp : YearPlan), yp ∈ (genYears ds lt area n rs).1 →
      ∃ rs2, yp = (regenYearPlan ds lt area rs2).1 := by
  intro n
  induction n with
  | zero => intro rs yp h; cases h
  | succ n ih =>
      intro rs yp h
      rw [genYears_succ] at h
      rcases List.mem_cons.mp h with rfl | h2
      · exact ⟨rs, rfl⟩
      · exact ih _ yp h2

theorem generateAux_cons (ds : Dataset) (years : Nat) (l : Nat × LandInfo)
    (restL : List (Nat × LandInfo)) (rs : RandStream) :
    generateAux ds years (l :: restL) rs =
      ((l.1, (genYears ds l.2.ltype l.2.area years rs).1) ::
          (generateAux ds years restL (genYears ds l.2.ltype l.2.area years rs).2).1,
        (generateAux ds years restL (genYears ds l.2.ltype l.2.area years rs).2).2) := rfl

theorem generateAux_spec (ds : Dataset) (years : Nat) :
    ∀ (L : List (Nat × LandInfo)) (rs : RandStream) (e : Nat × List YearPlan),
      e ∈ (generateAux ds years L rs).1 →
      ∃ info : LandInfo, (e.1, info) ∈ L ∧
        ∀ yp ∈ e.2, ∃ rs2, yp = (regenYearPlan ds info.ltype info.area rs2).1 := by
  intro L
  induction L with
  | nil => intro rs e h; cases h
  | cons l restL ih =>
      intro rs e h
      rw [generateAux_cons] at h
      rcases List.mem_cons.mp h with rfl | h2
      · refine ⟨l.2, ?_, ?_⟩
        · exact List.mem_cons.mpr (Or.inl rfl)
        · intro yp hyp
          exact genYears_mem ds l.2.ltype l.2.area years rs yp hyp
      · rcases ih _ e h2 with ⟨info, hmem, hcells⟩
        exact ⟨info, List.mem_cons_of_mem l hmem, hcells⟩

/-- The season-legality invariant of §3 as the claim states it, per
cell: open-field types only single-season; irrigated single, first, or
second with the second from the fixed root/leaf set; ordinary
greenhouses first plus an edible-fungus second; smart greenhouses first
and second. -/
def cellSeasonLegal (ds : Dataset) (lt : LandType) (s : Season) (c : Cell) : Prop :=
  match lt, s with
  | LandType.flatDry, Season.single => True
  | LandType.terrace, Season.single => True
  | LandType.hillside, Season.single => True
  | LandType.irrigated, Season.single => True
  | LandType.irrigated, Season.first => True
  | LandType.irrigated, Season.second => c.cropId ∈ secondVegCrops ds
  | LandType.normalGreenhouse, Season.first => True
  | LandType.normalGreenhouse, Season.second => c.cropId ∈ mushroomCrops ds
  | LandType.smartGreenhouse, Season.first => True
  | LandType.smartGreenhouse, Season.second => True
  | _, _ => False

theorem cropSourceOK_legal (ds : Dataset) (lt : LandType) (s : Season) (c : Cell)
    (h : cropSourceOK ds lt s c.cropId) : cellSeasonLegal ds lt s c := by
  cases lt <;> cases s <;> first
    | exact trivial
    | exact h

/-- C8: every Plan produced by the constructive generator satisfies the
structural invariant: each plot entry corresponds to a dataset plot, and
every cell's season label is legal for the plot's land type (with the
irrigated second season from the fixed root/leaf set and the ordinary
greenhouse second season an edible-fungus crop), every cell's area is
the plot's full area, and an irrigated plot-year is either single-season
or first/second-season but not both. -/
theorem generator_structural_invariant (ds : Dataset) (years : Nat) (rs : RandStream) :
    ∀ e ∈ (generateInitialSolution ds years rs).1, ∃ info : LandInfo, (e.1, info) ∈ ds.lands ∧
      (∀ yp ∈ e.2, ∀ (s : Season) (c : Cell), yp.get s = some c →
        cellSeasonLegal ds info.ltype s c ∧ c.area = info.area) ∧
      (info.ltype = LandType.irrigated → ∀ yp ∈ e.2,
        yp.sSingle = none ∨ (yp.sFirst = none ∧ yp.sSecond = none)) := by
  intro e he
  rcases generateAux_spec ds years ds.lands rs e he with ⟨info, hmem, hcells⟩
  refine ⟨info, hmem, ?_, ?_⟩
  · intro yp hyp s c hc
    rcases hcells yp hyp with ⟨rs2, rfl⟩
    rcases regenYearPlan_cells ds info.ltype info.area rs2 s c hc with ⟨hsrc, harea⟩
    exact ⟨cropSourceOK_legal ds info.ltype s c hsrc, harea⟩
  · intro hirr yp hyp
    rcases hcells yp hyp with ⟨rs2, rfl⟩
    rw [hirr]
    exact regenYearPlan_irrigated_excl ds info.area rs2

theorem cropSourceOK_keys (ds : Dataset) (lt : LandType) (s : Season) (cid : Nat)
    (h : cropSourceOK ds lt s cid) :
    cid ∈ cropKeys ds ∨ (lt = LandType.irrigated ∧ s = Season.single ∧ cid = 18) := by
  cases lt <;> cases s <;> first
    | exact Or.inr ⟨rfl, rfl, h⟩
    | exact Or.inl (grainCrops_subset ds cid h)
    | exact Or.inl (vegCrops_subset ds cid h)
    | exact Or.inl (secondVegCrops_subset ds cid h)
    | exact Or.inl (mushroomCrops_subset ds cid h)
    | exact (h : False).elim

/-- C9 (amended): every cell of a generated plan draws its crop id from
the category-filtered candidate list for its plot's land type and season
(`cropSourceOK`), hence the id exists in the Crop set — except the
irrigated single-season cell, whose paddy-rice id 18 is hardcoded with
no existence check.  (The local search's regeneration is the identical
code, shared here as `regenYearPlan`, and every regenerated plot-year
satisfies the same per-cell property.) -/
theorem generated_crop_sources (ds : Dataset) (years : Nat) (rs : RandStream) :
    ∀ e ∈ (generateInitialSolution ds years rs).1, ∃ info : LandInfo, (e.1, info) ∈ ds.lands ∧
      ∀ yp ∈ e.2, ∀ (s : Season) (c : Cell), yp.get s = some c →
        cropSourceOK ds info.ltype s c.cropId ∧
        (c.cropId ∈ cropKeys ds ∨
          (info.ltype = LandType.irrigated ∧ s = Season.single ∧ c.cropId = 18)) := by
  intro e he
  rcases generateAux_spec ds years ds.lands rs e he with ⟨info, hmem, hcells⟩
  refine ⟨info, hmem, ?_⟩
  intro yp hyp s c hc
  rcases hcells yp hyp with ⟨rs2, rfl⟩
  rcases regenYearPlan_cells ds info.ltype info.area rs2 s c hc with ⟨hsrc, _⟩
  exact ⟨hsrc, cropSourceOK_keys ds info.ltype s c.cropId hsrc⟩

/-- Category tag of the edible-fungus crops, for the witness dataset. -/
def fungusType : String := "食用菌"

/-- Witness dataset: one ordinary greenhouse of area 2, a vegetable crop
7 and an edible-fungus crop 40. -/
def wds8 : Dataset :=
  { lands := [(3, { ltype := LandType.normalGreenhouse, area := 2 })]
    crops := [(7, { ctype := vegType }), (40, { ctype := fungusType })]
    stats := []
    expectedSales := [] }

def ypW8 : YearPlan := ⟨none, some ⟨7, 2⟩, some ⟨40, 2⟩⟩

/-- C8 witness: the theorem applied to a concrete generator run on the
greenhouse dataset. -/
theorem generator_structural_invariant_witness :
    ∃ info : LandInfo, ((3 : Nat), info) ∈ wds8.lands ∧
      (∀ yp ∈ [ypW8], ∀ (s : Season) (c : Cell), yp.get s = some c →
        cellSeasonLegal wds8 info.ltype s c ∧ c.area = info.area) ∧
      (info.ltype = LandType.irrigated → ∀ yp ∈ [ypW8],
        yp.sSingle = none ∨ (yp.sFirst = none ∧ yp.sSecond = none)) :=
  generator_structural_invariant wds8 1 [0, 0] (3, [ypW8]) (by decide)

/-- C9 witness: the amended theorem applied to the same concrete
generator run. -/
theorem generated_crop_sources_witness :
    ∃ info : LandInfo, ((3 : Nat), info) ∈ wds8.lands ∧
      ∀ yp ∈ [ypW8], ∀ (s : Season) (c : Cell), yp.get s = some c →
        cropSourceOK wds8 info.ltype s c.cropId ∧
        (c.cropId ∈ cropKeys wds8 ∨
          (info.ltype = LandType.irrigated ∧ s = Season.single ∧ c.cropId = 18)) :=
  generated_crop_sources wds8 1 [0, 0] (3, [ypW8]) (by decide)

/-! Claim C10: totality of the fitness evaluator. -/

theorem totalProfit?_isSome (ds : Dataset) (sc : Nat) :
    ∀ plan : Plan, (∀ p ∈ plan, (alookup ds.lands p.1).isSome) →
      (totalProfit? ds sc plan).isSome = true := by
  intro plan
  induction plan with
  | nil => intro _; rfl
  | cons p rest ih =>
      intro h
      obtain ⟨li, hli⟩ := Option.isSome_iff_exists.mp (h p (List.mem_cons_self p rest))
      obtain ⟨acc, hacc⟩ :=
        Option.isSome_iff_exists.mp (ih fun q hq => h q (List.mem_cons_of_mem p hq))
      rw [totalProfit?, hli, hacc]
      rfl

/-- C10: the fitness evaluator returns a value on every plan with at
least one plot whose plots all exist in the dataset (as the Plan data
model requires), and in particular the concentration scan's unguarded
access to the first plot succeeds; on the empty plan that access raises
(IndexError on `list(solution.keys())[0]`), so evaluation yields no
value. -/
theorem fitness_total_on_nonempty (ds : Dataset) (sc : Nat) (p0 : Nat × List YearPlan)
    (rest : Plan) (hlands : ∀ p ∈ (p0 :: rest : Plan), (alookup ds.lands p.1).isSome) :
    (calculateFitness? ds sc (p0 :: rest)).isSome = true ∧
    (concentrationPenalty? (p0 :: rest)).isSome = true ∧
    calculateFitness? ds sc ([] : Plan) = none := by
  obtain ⟨pr, hpr⟩ := Option.isSome_iff_exists.mp (totalProfit?_isSome ds sc _ hlands)
  refine ⟨?_, ?_, ?_⟩
  · rw [calculateFitness?, hpr, constraintPenalty?, concentrationPenalty?]
    rfl
  · rw [concentrationPenalty?]
    rfl
  · rfl

/-- C10 witness: the concrete one-plot scenario plan. -/
theorem fitness_total_on_nonempty_witness :
    (calculateFitness? exDs4 1 ((1, [yp4]) :: [])).isSome = true ∧
    (concentrationPenalty? ((1, [yp4]) :: [])).isSome = true ∧
    calculateFitness? exDs4 1 ([] : Plan) = none :=
  fitness_total_on_nonempty exDs4 1 (1, [yp4]) [] (by decide)
